import Mathlib

/-!
Shallow embedding of the decision-and-routing workflow of `src/Agent.py`
(travel-agent repository).  External effects — the LLM backend, the Tavily
search backend, Python's `eval`, and the system clock — are modelled as
explicit oracle parameters; everything else is translated directly from the
source.  The `messages` and `context` list fields of the Python `AgentState`
are omitted: no claim under verification depends on them, and every node
only appends to them.
-/

namespace Agent

/-- Characters matched by the regex class `\s` on the ASCII range, as used in
the character class `[\d+\-*/().\s]` of Agent.py lines 114 and 338, and by
Python's `str.strip()` on the inputs that occur here. -/
def isSpaceChar (c : Char) : Bool :=
  c = ' ' || c = '\t' || c = '\n' || c = '\r' || c = '\x0b' || c = '\x0c'

/-- The allowed character class `[\d+\-*/().\s]` shared by `calculator`
(Agent.py line 114) and the expression extraction of `tool_node` (line 338). -/
def isAllowedChar (c : Char) : Bool :=
  c.isDigit || c = '+' || c = '-' || c = '*' || c = '/' ||
    c = '(' || c = ')' || c = '.' || isSpaceChar c

/-- Python `str.strip()` on a list of characters. -/
def pyStripL (l : List Char) : List Char :=
  ((l.dropWhile isSpaceChar).reverse.dropWhile isSpaceChar).reverse

/-- Python `str.strip()`. -/
def pyStrip (s : String) : String := String.mk (pyStripL s.toList)

/-- `re.sub(r'[^\d\+\-\*\/\(\)\.\s]', '', expression)` — remove every
character outside the allowed set (Agent.py line 114). -/
def stripUnsafe (s : String) : String := String.mk (s.toList.filter isAllowedChar)

/-- List-level prefix test (used to model Python substring containment). -/
def isPrefixList : List Char → List Char → Bool
  | [], _ => true
  | _ :: _, [] => false
  | a :: as, b :: bs => a = b && isPrefixList as bs

/-- Does `needle` occur as a contiguous sublist of the second argument? -/
def hasSubList (needle : List Char) : List Char → Bool
  | [] => isPrefixList needle []
  | c :: rest => isPrefixList needle (c :: rest) || hasSubList needle rest

/-- Python `needle in hay` on strings. -/
def pyIn (needle hay : String) : Bool := hasSubList needle.toList hay.toList

/-- Python `str.lower()`, modelled on the ASCII range via `Char.toLower`
(identity on the Chinese keywords and queries involved, as in Python). -/
def pyLower (s : String) : String := String.mk (s.toList.map Char.toLower)

/-- Error string returned by `calculator` when the stripped expression is
empty (Agent.py line 116). -/
def errNoExpression : String := "错误：未提供有效的数学表达式"

/-- Error string returned by `calculator` when evaluation fails
(Agent.py line 124). -/
def errCannotEval : String := "错误：无法计算该表达式，请确保表达式格式正确"

/-- The `calculator` tool (Agent.py lines 109-127).  Python's `eval` with
emptied builtins is external; it is modelled by the oracle `evalFn`, which
returns `some r` (the printed result) on success and `none` when evaluation
raises.  The bare `except` around `eval` means no exception escapes, so the
model is a total function. -/
def calculator (evalFn : String → Option String) (expression : String) : String :=
  if pyStrip (stripUnsafe expression) = "" then errNoExpression
  else
    match evalFn (stripUnsafe expression) with
    | some r => "计算结果: " ++ stripUnsafe expression ++ " = " ++ r
    | none => errCannotEval

/-- The system clock readings used by `date_time_info` (Agent.py lines
129-146), modelled as data. -/
structure Clock where
  dateS : String
  timeS : String
  weekdayS : String
  monthS : String
  year : Nat

/-- The leap-year test of Agent.py line 139. -/
def isLeapYear (y : Nat) : Bool := (y % 4 == 0 && y % 100 != 0) || y % 400 == 0

/-- The `date_time_info` tool (Agent.py lines 129-146). -/
def date_time_info (ck : Clock) : String :=
  "📅 日期时间信息：\n" ++
  "  • 当前日期: " ++ ck.dateS ++ "\n" ++
  "  • 当前时间: " ++ ck.timeS ++ "\n" ++
  "  • 星期: " ++ ck.weekdayS ++ "\n" ++
  "  • 月份: " ++ ck.monthS ++ "\n" ++
  "  • 年份: " ++ toString ck.year ++ "\n" ++
  "  • 是否闰年: " ++ (if isLeapYear ck.year then "是" else "否") ++ "\n"

/-- One Tavily search result (title/content/url, Agent.py lines 93-95).
The `.get` defaults for missing keys are not modelled: the claims under
verification do not depend on them. -/
structure TavilyResult where
  title : String
  content : String
  url : String
deriving DecidableEq

/-- A Tavily response: `answer` uses `""` for a missing/falsy answer
(Python truthiness collapses `None` and `""` at Agent.py line 86). -/
structure TavilyResponse where
  answer : String
  results : List TavilyResult
deriving DecidableEq

/-- Message returned when no Tavily key is configured (Agent.py line 63). -/
def searchUnavailableMsg : String :=
  "错误：未配置Tavily API密钥，无法进行搜索。请在.env文件中设置TAVILY_API_KEY。"

/-- Message substituted when the digest is empty (Agent.py line 102). -/
def noResultsMsg : String := "抱歉，没有找到相关信息。请尝试不同的关键词。"

/-- Per-result content truncation to 200 characters (Agent.py lines 97-98). -/
def truncContent (c : String) : String :=
  if c.length > 200 then c.take 200 ++ "..." else c

/-- Rendering of one search result (Agent.py line 99). -/
def formatOneResult (i : Nat) (r : TavilyResult) : String :=
  toString i ++ ". 📰 " ++ r.title ++ "\n   📝 " ++ truncContent r.content ++
    "\n   🔗 来源: " ++ r.url ++ "\n\n"

/-- The `【综合答案】` section of the digest (Agent.py lines 86-87). -/
def answerSection (resp : TavilyResponse) : String :=
  if resp.answer = "" then "" else "【综合答案】\n" ++ resp.answer ++ "\n\n"

/-- The `【相关信息】` section of the digest (Agent.py lines 90-99). -/
def resultsSection (resp : TavilyResponse) : String :=
  if resp.results = [] then ""
  else "【相关信息】\n" ++
    String.join ((resp.results.take 3).enum.map (fun p => formatOneResult (p.1 + 1) p.2))

/-- Digest construction from a Tavily response (Agent.py lines 82-104). -/
def formatSearchResults (resp : TavilyResponse) : String :=
  if answerSection resp ++ resultsSection resp = "" then noResultsMsg
  else answerSection resp ++ resultsSection resp

/-- The date-suffix augmentation applied inside `web_search`
(Agent.py lines 68-70). -/
def enhancedQuery (curDate q : String) : String := q ++ "，当前日期是" ++ curDate

/-- Outcome of the Tavily call: `Except.error e` models a raised exception,
converted by the handler of Agent.py lines 106-107. -/
def searchOutcome (r : Except String TavilyResponse) : String :=
  match r with
  | Except.error e => "搜索失败: " ++ e ++ "。请检查网络连接或API密钥。"
  | Except.ok resp => formatSearchResults resp

/-- The `web_search` tool (Agent.py lines 51-107).  `backend` models
`tavily_client.search`; its argument is the query string actually sent.
The `try/except` makes the tool total. -/
def web_search (hasClient : Bool) (curDate : String)
    (backend : String → Except String TavilyResponse) (query : String) : String :=
  if !hasClient then searchUnavailableMsg
  else searchOutcome (backend (enhancedQuery curDate query))

/-- Digest truncation of `search_node` (Agent.py lines 307-309). -/
def truncSearch (s : String) : String :=
  if s.length > 1000 then s.take 1000 ++ "...\n(内容已截断)" else s

/-- Output truncation of `tool_node` (Agent.py lines 356-358). -/
def truncTool (s : String) : String :=
  if s.length > 800 then s.take 800 ++ "...\n(结果已截断)" else s

/-- Per-turn scalar state (`AgentState`, Agent.py lines 25-35), without the
append-only `messages`/`context` lists. -/
structure AgentState where
  user_query : String
  next_action : String
  search_needed : Bool
  search_query : String
  search_results : String
  final_answer : String
  step : String
  tool_output : String
deriving DecidableEq

/-- The fully-initialised per-turn state (Agent.py lines 516-527). -/
def initState (q : String) : AgentState :=
  { user_query := q, next_action := "", search_needed := false, search_query := "",
    search_results := "", final_answer := "", step := "start", tool_output := "" }

/-- `receive_input_node` (Agent.py lines 149-165); the latest user message is
the turn's query. -/
def receive_input_node (q : String) (st : AgentState) : AgentState :=
  { st with user_query := q, step := "received_input" }

/-- The decision object as read by `decide_action_node`; `none` models a
missing JSON key. -/
structure DecisionObj where
  next_action : Option String
  search_query : Option String
  tool_needed : Option String

/-- Outcome of the decision backend call plus JSON decoding:
`backendFailure` = `llm.invoke` raised (outer handler, Agent.py lines
257-267); `parseFailure` = `json.loads` raised (lines 209-235);
`parsed d` = decoding succeeded with object `d`. -/
inductive DecideInput where
  | backendFailure
  | parseFailure
  | parsed (d : DecisionObj)

/-- Keyword list of Agent.py lines 219-220. -/
def search_keywords : List String :=
  ["最新", "新闻", "实时", "今天", "现在", "搜索", "查一下",
   "如何", "怎样", "2025", "股价", "天气", "行情", "新冠"]

/-- Keyword list of Agent.py line 221. -/
def tool_keywords : List String :=
  ["计算", "等于", "+", "-", "*", "/", "加", "减", "乘", "除"]

/-- Keyword list of Agent.py line 222. -/
def time_keywords : List String := ["时间", "日期", "星期", "几号", "年月日"]

/-- The keyword-fallback classifier of Agent.py lines 210-235. -/
def fallbackDecision (user_query : String) : DecisionObj :=
  let q := pyLower user_query
  if search_keywords.any (fun k => pyIn k q) then
    { next_action := some "search_first", search_query := some user_query,
      tool_needed := some "web_search" }
  else if tool_keywords.any (fun k => pyIn k q) then
    { next_action := some "use_tools", search_query := none,
      tool_needed := some "calculator" }
  else if time_keywords.any (fun k => pyIn k q) then
    { next_action := some "use_tools", search_query := none,
      tool_needed := some "date_time" }
  else
    { next_action := some "answer_directly", search_query := none,
      tool_needed := some "none" }

/-- The state update computed from a decision object
(Agent.py lines 237-255). -/
def decideFromObj (d : DecisionObj) (st : AgentState) : AgentState :=
  let na := d.next_action.getD "answer_directly"
  { st with
    next_action := na,
    search_needed := (na == "search_first" || na == "use_tools")
      && d.tool_needed == some "web_search",
    search_query := d.search_query.getD st.user_query,
    tool_output := d.tool_needed.getD "none",
    step := "decided_action" }

/-- `decide_action_node` (Agent.py lines 167-267). -/
def decide_action_node (inp : DecideInput) (st : AgentState) : AgentState :=
  match inp with
  | DecideInput.backendFailure =>
      { st with next_action := "answer_directly", search_needed := false,
                search_query := st.user_query, tool_output := "none",
                step := "decided_action" }
  | DecideInput.parseFailure => decideFromObj (fallbackDecision st.user_query) st
  | DecideInput.parsed d => decideFromObj d st

/-- `direct_answer_node` (Agent.py lines 269-290); `resp` is the backend's
answer text (an uncaught backend failure here aborts the turn and is outside
the modelled flow). -/
def direct_answer_node (resp : String) (st : AgentState) : AgentState :=
  { st with final_answer := resp, step := "answered_directly" }

/-- `search_node` (Agent.py lines 292-324).  The handler of lines 317-324 is
unreachable in the model because `web_search` is total. -/
def search_node (hasClient : Bool) (curDate : String)
    (backend : String → Except String TavilyResponse) (st : AgentState) : AgentState :=
  if !st.search_needed then
    { st with search_results := "", step := "skipped_search" }
  else
    { st with
      search_results := truncSearch (web_search hasClient curDate backend st.search_query),
      step := "searched", tool_output := "web_search" }

/-- The leftmost match of `re.search(r'[\d+\-*/().\s]+', ·)` on a character
list: `none` when no character is allowed, otherwise the maximal run of
allowed characters starting at the first allowed position. -/
def firstRunL (l : List Char) : Option (List Char) :=
  match l.dropWhile (fun c => !isAllowedChar c) with
  | [] => none
  | c :: rest => some ((c :: rest).takeWhile isAllowedChar)

/-- The leftmost match of `re.search(r'[\d+\-*/().\s]+', ·)` on a string
(Agent.py line 338). -/
def firstRun (s : String) : Option String := (firstRunL s.toList).map String.mk

/-- The expression the calculator branch of `tool_node` passes to the
calculator (Agent.py lines 336-344): the leftmost maximal allowed run,
stripped; the raw query if there is no match. -/
def calculatorExpression (q : String) : String :=
  match firstRun q with
  | some run => pyStrip run
  | none => q

/-- The calculator branch of `tool_node` before truncation
(Agent.py lines 336-344). -/
def toolCalcResult (evalFn : String → Option String) (q : String) : String :=
  calculator evalFn (calculatorExpression q)

/-- `tool_node` (Agent.py lines 326-368).  All three tools are total in the
model, so the handler of lines 360-361 is unreachable. -/
def tool_node (hasClient : Bool) (curDate : String)
    (backend : String → Except String TavilyResponse)
    (evalFn : String → Option String) (ck : Clock) (st : AgentState) : AgentState :=
  let tn := st.tool_output
  let result :=
    if tn = "calculator" then toolCalcResult evalFn st.user_query
    else if tn = "date_time" then date_time_info ck
    else if tn = "web_search" then web_search hasClient curDate backend st.user_query
    else web_search hasClient curDate backend st.user_query
  { st with search_results := truncTool result, step := "tools_executed",
            tool_output := tn }

/-- Outcome of the synthesis backend call (Agent.py lines 407-430). -/
inductive SynthOutcome where
  | success (ans : String)
  | failure (e : String)

/-- The provenance footer appended at Agent.py line 415. -/
def footerFor (tool_used : String) : String :=
  "\n\n---\nℹ️ 本次使用了 " ++ tool_used ++ " 工具获取信息"

/-- `generate_final_answer_node` (Agent.py lines 370-430).  On the direct
path `final_answer` was already set by `direct_answer_node`, so the `.get`
default of line 377 never fires along the modelled flow. -/
def generate_final_answer_node (outcome : SynthOutcome) (st : AgentState) : AgentState :=
  if st.step = "answered_directly" then
    { st with step := "completed" }
  else
    match outcome with
    | SynthOutcome.success ans =>
        let tu := st.tool_output
        { st with
          final_answer := if tu ≠ "" ∧ tu ≠ "none" then ans ++ footerFor tu else ans,
          step := "completed" }
    | SynthOutcome.failure e =>
        { st with final_answer := "抱歉，生成回答时遇到问题。错误信息: " ++ e,
                  step := "error" }

/-- `router_node` (Agent.py lines 432-447). -/
def router_node (st : AgentState) : String :=
  if st.next_action = "answer_directly" then "direct_answer"
  else if st.next_action = "search_first" then "search"
  else if st.next_action = "use_tools" then "tools"
  else "direct_answer"

/-- The external collaborators of one turn, fixed up front. -/
structure Env where
  hasClient : Bool
  curDate : String
  backend : String → Except String TavilyResponse
  evalFn : String → Option String
  clock : Clock
  decideInput : DecideInput
  directAnswer : String
  synthOutcome : SynthOutcome

/-- State after `receive_input` and `decide_action` (graph edges of
Agent.py lines 464-465). -/
def afterDecide (env : Env) (q : String) : AgentState :=
  decide_action_node env.decideInput (receive_input_node q (initState q))

/-- The conditional fan-out of Agent.py lines 468-476: exactly the branch
named by `router_node` runs. -/
def runBranch (env : Env) (st : AgentState) : AgentState :=
  let r := router_node st
  if r = "direct_answer" then direct_answer_node env.directAnswer st
  else if r = "search" then search_node env.hasClient env.curDate env.backend st
  else tool_node env.hasClient env.curDate env.backend env.evalFn env.clock st

/-- One full turn: input → decision → branch → synthesis
(Agent.py lines 464-482). -/
def runTurn (env : Env) (q : String) : AgentState :=
  generate_final_answer_node env.synthOutcome (runBranch env (afterDecide env q))

/-- Length of the longest contiguous run of allowed characters, computed as
the maximum over all suffixes.  Modelled from the spec's words ("the longest
contiguous run of characters drawn from digits, the operators and
whitespace"), for comparison with the extraction the code performs. -/
def specLongestRunLen (s : String) : Nat :=
  (s.toList.tails.map (fun t => (t.takeWhile isAllowedChar).length)).foldr Nat.max 0

/-- A clock with empty readings, for concrete scenarios that never consult
the clock. -/
def emptyClock : Clock :=
  { dateS := "", timeS := "", weekdayS := "", monthS := "", year := 0 }

/-- A search backend that echoes the query it receives as the synthesized
answer, making the query actually sent observable in the digest. -/
def echoBackend : String → Except String TavilyResponse :=
  fun s => Except.ok { answer := s, results := [] }

/-- Concrete turn: the backend's parsed decision routes to the search branch
(`next_action = "search_first"`) while naming no web_search tool, so
`search_needed` is false and the search branch stores an empty digest. -/
def envSkipSearchEmpty : Env :=
  { hasClient := true, curDate := "2026年10月12日", backend := echoBackend,
    evalFn := fun _ => none, clock := emptyClock,
    decideInput := DecideInput.parsed
      { next_action := some "search_first", search_query := none,
        tool_needed := some "none" },
    directAnswer := "D", synthOutcome := SynthOutcome.success "S" }

/-- Concrete turn: a parsed decision with `next_action = "search_first"` and
`tool_needed = "calculator"`; the search branch is skipped (no capability
runs) yet the stale selector survives to synthesis. -/
def envStaleSelector : Env :=
  { hasClient := true, curDate := "2026年10月12日", backend := echoBackend,
    evalFn := fun _ => none, clock := emptyClock,
    decideInput := DecideInput.parsed
      { next_action := some "search_first", search_query := some "天气",
        tool_needed := some "calculator" },
    directAnswer := "D", synthOutcome := SynthOutcome.success "ANS" }

/-- Concrete turn: a parsed decision routing to the tool branch with the
date_time selector; used to witness the footer behaviour. -/
def envDateTimeTurn : Env :=
  { hasClient := false, curDate := "", backend := echoBackend,
    evalFn := fun _ => none,
    clock := { dateS := "2026年10月12日", timeS := "12:00:00", weekdayS := "一",
               monthS := "October", year := 2026 },
    decideInput := DecideInput.parsed
      { next_action := some "use_tools", search_query := none,
        tool_needed := some "date_time" },
    directAnswer := "D", synthOutcome := SynthOutcome.success "A" }

/-- Concrete turn: a fallback search decision with a backend whose call
raises; used to witness the search error handling. -/
def envSearchFailTurn : Env :=
  { hasClient := true, curDate := "2026年10月12日",
    backend := fun _ => Except.error "boom",
    evalFn := fun _ => none, clock := emptyClock,
    decideInput := DecideInput.parseFailure,
    directAnswer := "D", synthOutcome := SynthOutcome.success "A" }

/-! Helper lemmas shared by several claims. -/

theorem string_ne_empty_of_length_pos {s : String} (h : 0 < s.length) : s ≠ "" := by
  intro he
  rw [he] at h
  simp at h

theorem length_pos_left {a : String} (b : String) (h : 0 < a.length) :
    0 < (a ++ b).length := by
  rw [String.length_append]
  omega

theorem append_ne_empty_of_left_pos {a : String} (b : String) (h : 0 < a.length) :
    a ++ b ≠ "" := by
  intro he
  have h2 := congrArg String.length he
  rw [String.length_append, String.length_empty] at h2
  omega

theorem append_ne_empty_of_right_pos (a : String) {b : String} (h : 0 < b.length) :
    a ++ b ≠ "" := by
  intro he
  have h2 := congrArg String.length he
  rw [String.length_append, String.length_empty] at h2
  omega

theorem calculator_ne_empty (f : String → Option String) (e : String) :
    calculator f e ≠ "" := by
  unfold calculator
  split
  · decide
  · cases f (stripUnsafe e) with
    | none => exact (fun he => by simp [errCannotEval] at he)
    | some r =>
        exact append_ne_empty_of_left_pos r
          (length_pos_left _ (length_pos_left _ (by decide)))

theorem date_time_info_ne_empty (ck : Clock) : date_time_info ck ≠ "" := by
  unfold date_time_info
  apply append_ne_empty_of_left_pos
  repeat apply length_pos_left
  decide

theorem formatSearchResults_ne_empty (resp : TavilyResponse) :
    formatSearchResults resp ≠ "" := by
  unfold formatSearchResults
  split
  · decide
  · assumption

theorem searchOutcome_ne_empty (r : Except String TavilyResponse) :
    searchOutcome r ≠ "" := by
  unfold searchOutcome
  cases r with
  | error e =>
      exact append_ne_empty_of_left_pos _ (length_pos_left _ (by decide))
  | ok resp => exact formatSearchResults_ne_empty resp

theorem web_search_ne_empty (hc : Bool) (d : String)
    (b : String → Except String TavilyResponse) (q : String) :
    web_search hc d b q ≠ "" := by
  unfold web_search
  split
  · decide
  · exact searchOutcome_ne_empty _

theorem truncSearch_ne_empty {s : String} (h : s ≠ "") : truncSearch s ≠ "" := by
  unfold truncSearch
  split
  · exact append_ne_empty_of_right_pos _ (by decide)
  · exact h

theorem truncTool_ne_empty {s : String} (h : s ≠ "") : truncTool s ≠ "" := by
  unfold truncTool
  split
  · exact append_ne_empty_of_right_pos _ (by decide)
  · exact h

theorem tool_node_results_ne_empty (hc : Bool) (d : String)
    (b : String → Except String TavilyResponse) (f : String → Option String)
    (ck : Clock) (st : AgentState) :
    (tool_node hc d b f ck st).search_results ≠ "" := by
  show truncTool _ ≠ ""
  apply truncTool_ne_empty
  split_ifs
  · exact calculator_ne_empty _ _
  · exact date_time_info_ne_empty _
  · exact web_search_ne_empty _ _ _ _
  · exact web_search_ne_empty _ _ _ _

theorem generate_final_preserves_results (o : SynthOutcome) (st : AgentState) :
    (generate_final_answer_node o st).search_results = st.search_results := by
  unfold generate_final_answer_node
  split
  · rfl
  · cases o <;> rfl

theorem afterDecide_results_empty (env : Env) (q : String) :
    (afterDecide env q).search_results = "" := by
  unfold afterDecide decide_action_node
  cases env.decideInput <;> rfl

theorem router_cases (st : AgentState) :
    router_node st = "direct_answer" ∨ router_node st = "search" ∨
      router_node st = "tools" := by
  unfold router_node
  split_ifs <;> simp

theorem runBranch_direct {env : Env} {st : AgentState}
    (h : router_node st = "direct_answer") :
    runBranch env st = direct_answer_node env.directAnswer st := by
  simp [runBranch, h]

theorem runBranch_search {env : Env} {st : AgentState}
    (h : router_node st = "search") :
    runBranch env st = search_node env.hasClient env.curDate env.backend st := by
  simp [runBranch, h]

theorem runBranch_tools {env : Env} {st : AgentState}
    (h : router_node st = "tools") :
    runBranch env st = tool_node env.hasClient env.curDate env.backend
      env.evalFn env.clock st := by
  simp [runBranch, h]

theorem toList_mk (l : List Char) : (String.mk l).toList = l := rfl

/-! Claim theorems. -/

/-- C2 (counterexample): the claim's example is wrong — a query consisting of
the search-indicating example keyword "latest" is classified by the JSON-parse
fallback as `answer_directly`, not as the search route, because the code's
search keyword list contains no English entries. -/
theorem c2_counterexample :
    pyIn "latest" (pyLower "latest") = true ∧
    (decide_action_node DecideInput.parseFailure (initState "latest")).next_action
      = "answer_directly" ∧
    (decide_action_node DecideInput.parseFailure (initState "latest")).next_action
      ≠ "search_first" := by
  decide

/-- C2 (amended): on a JSON decode failure the decision stage classifies by
substring-matching the lowercased query against the three fixed keyword lists
in priority order search, then tool (arithmetic), then time, first match
winning, defaulting to the direct route; the route and selector fields follow
that classification exactly.  In particular "最新" resolves to the search
route and "计算" resolves to the tool route with the calculator selector
(the example "latest" of the original claim is not in the keyword lists). -/
theorem c2_amended (st : AgentState) :
    ((decide_action_node DecideInput.parseFailure st).next_action =
      (if search_keywords.any (fun k => pyIn k (pyLower st.user_query)) then "search_first"
       else if tool_keywords.any (fun k => pyIn k (pyLower st.user_query)) then "use_tools"
       else if time_keywords.any (fun k => pyIn k (pyLower st.user_query)) then "use_tools"
       else "answer_directly")) ∧
    ((decide_action_node DecideInput.parseFailure st).tool_output =
      (if search_keywords.any (fun k => pyIn k (pyLower st.user_query)) then "web_search"
       else if tool_keywords.any (fun k => pyIn k (pyLower st.user_query)) then "calculator"
       else if time_keywords.any (fun k => pyIn k (pyLower st.user_query)) then "date_time"
       else "none")) ∧
    (decide_action_node DecideInput.parseFailure (initState "最新")).next_action
      = "search_first" ∧
    (decide_action_node DecideInput.parseFailure (initState "计算")).next_action
      = "use_tools" ∧
    (decide_action_node DecideInput.parseFailure (initState "计算")).tool_output
      = "calculator" := by
  refine ⟨?_, ?_, by decide, by decide, by decide⟩ <;>
    · simp only [decide_action_node, decideFromObj, fallbackDecision]
      split_ifs <;> rfl

/-- C3 (counterexample): the extraction is not the longest allowed run.  In
"a1 b 12345" the longest contiguous allowed run is " 12345" (length 6), but
the code's `re.search` takes the first run "1 " (length 2) and passes "1". -/
theorem c3_counterexample :
    calculatorExpression "a1 b 12345" = "1" ∧
    (firstRun "a1 b 12345").map String.length = some 2 ∧
    specLongestRunLen "a1 b 12345" = 6 ∧
    calculatorExpression "a1 b 12345" ≠ "12345" := by
  decide

/-- C3 (amended): for a query routed to the calculator, the tool stage
extracts the FIRST maximal contiguous run of characters drawn from digits,
the operators, and whitespace (the leftmost regex match), and passes that
run stripped of surrounding whitespace; only when the query contains no
allowed character at all is the raw query passed instead. -/
theorem c3_amended (q : String) :
    (∀ run, firstRun q = some run →
      ∃ pre suf : List Char,
        q.toList = pre ++ run.toList ++ suf ∧
        (∀ c ∈ pre, isAllowedChar c = false) ∧
        run.toList ≠ [] ∧
        (∀ c ∈ run.toList, isAllowedChar c = true) ∧
        (∀ c, suf.head? = some c → isAllowedChar c = false) ∧
        calculatorExpression q = pyStrip run) ∧
    (firstRun q = none →
      (∀ c ∈ q.toList, isAllowedChar c = false) ∧ calculatorExpression q = q) := by
  constructor
  · intro run hrun
    have hce : calculatorExpression q = pyStrip run := by
      unfold calculatorExpression
      rw [hrun]
    unfold firstRun firstRunL at hrun
    cases hd : q.toList.dropWhile (fun c => !isAllowedChar c) with
    | nil =>
        rw [hd] at hrun
        simp at hrun
    | cons c rest =>
        rw [hd] at hrun
        simp at hrun
        have hl : run.toList = (c :: rest).takeWhile isAllowedChar := by
          rw [← hrun]
          rfl
        refine ⟨q.toList.takeWhile (fun c => !isAllowedChar c),
                (c :: rest).dropWhile isAllowedChar, ?_, ?_, ?_, ?_, ?_, hce⟩
        · rw [hl, List.append_assoc, List.takeWhile_append_dropWhile,
            ← hd, List.takeWhile_append_dropWhile]
        · intro x hx
          have hx2 := List.mem_takeWhile_imp hx
          simpa using hx2
        · have hc0 : isAllowedChar c = true := by
            have h5 := List.head?_dropWhile_not (fun c => !isAllowedChar c) q.toList
            rw [hd] at h5
            simpa using h5
          rw [hl, List.takeWhile_cons_of_pos hc0]
          simp
        · intro x hx
          rw [hl] at hx
          exact List.mem_takeWhile_imp hx
        · intro x hx
          have h5 := List.head?_dropWhile_not isAllowedChar (c :: rest)
          rw [hx] at h5
          simpa using h5
  · intro hrun
    have hce : calculatorExpression q = q := by
      unfold calculatorExpression
      rw [hrun]
    refine ⟨?_, hce⟩
    unfold firstRun firstRunL at hrun
    cases hd : q.toList.dropWhile (fun c => !isAllowedChar c) with
    | nil =>
        intro x hx
        have hx2 := List.dropWhile_eq_nil_iff.mp hd x hx
        simpa using hx2
    | cons c rest =>
        rw [hd] at hrun
        simp at hrun

/-- C3 (witness): the amended theorem applied to the query
"计算25*4+100等于多少", whose first maximal allowed run is "25*4+100". -/
theorem c3_amended_witness :
    ∃ pre suf : List Char,
      ("计算25*4+100等于多少" : String).toList =
        pre ++ ("25*4+100" : String).toList ++ suf ∧
      (∀ c ∈ pre, isAllowedChar c = false) ∧
      ("25*4+100" : String).toList ≠ [] ∧
      (∀ c ∈ ("25*4+100" : String).toList, isAllowedChar c = true) ∧
      (∀ c, suf.head? = some c → isAllowedChar c = false) ∧
      calculatorExpression "计算25*4+100等于多少" = pyStrip "25*4+100" :=
  (c3_amended "计算25*4+100等于多少").1 "25*4+100" (by decide)

/-- C4: the calculator either returns a success string whose left-hand side
is exactly the input with every character outside the allowed set removed,
with the evaluated value on the right-hand side, or returns one of the two
fixed error strings (empty stripped expression, or evaluation failure); the
model is a total function, reflecting that the try/except lets no exception
escape. -/
theorem c4_calculator_contract (evalFn : String → Option String) (e : String) :
    (pyStrip (stripUnsafe e) = "" → calculator evalFn e = errNoExpression) ∧
    (∀ r, pyStrip (stripUnsafe e) ≠ "" → evalFn (stripUnsafe e) = some r →
      calculator evalFn e = "计算结果: " ++ stripUnsafe e ++ " = " ++ r) ∧
    (pyStrip (stripUnsafe e) ≠ "" → evalFn (stripUnsafe e) = none →
      calculator evalFn e = errCannotEval) ∧
    (calculator evalFn e = errNoExpression ∨ calculator evalFn e = errCannotEval ∨
      ∃ r, evalFn (stripUnsafe e) = some r ∧
        calculator evalFn e = "计算结果: " ++ stripUnsafe e ++ " = " ++ r) := by
  refine ⟨?_, ?_, ?_, ?_⟩
  · intro h
    simp [calculator, h]
  · intro r hne hr
    simp [calculator, hne, hr]
  · intro hne hr
    simp [calculator, hne, hr]
  · by_cases h : pyStrip (stripUnsafe e) = ""
    · left
      simp [calculator, h]
    · cases hr : evalFn (stripUnsafe e) with
      | none =>
          right; left
          simp [calculator, h, hr]
      | some r =>
          right; right
          exact ⟨r, rfl, by simp [calculator, h, hr]⟩

/-- C4 (witness): the contract evaluated on the query text
"计算 25 * 4 + 100 等于多少" with an evaluator returning "200". -/
theorem c4_calculator_contract_witness :
    calculator (fun _ => some "200") "计算 25 * 4 + 100 等于多少" =
      "计算结果: " ++ stripUnsafe "计算 25 * 4 + 100 等于多少" ++ " = " ++ "200" :=
  (c4_calculator_contract (fun _ => some "200") "计算 25 * 4 + 100 等于多少").2.1
    "200" (by decide) rfl

/-- C7 (counterexample): the two truncation markers are different strings,
so the claim's single fixed marker is wrong: a 1001-character digest is
truncated with "...\n(内容已截断)" while an 801-character tool output is
truncated with "...\n(结果已截断)". -/
theorem c7_counterexample :
    truncSearch (String.mk (List.replicate 1001 'x')) =
      (String.mk (List.replicate 1001 'x')).take 1000 ++ "...\n(内容已截断)" ∧
    truncTool (String.mk (List.replicate 801 'x')) =
      (String.mk (List.replicate 801 'x')).take 800 ++ "...\n(结果已截断)" ∧
    ("...\n(内容已截断)" : String) ≠ "...\n(结果已截断)" := by
  refine ⟨?_, ?_, by decide⟩
  · unfold truncSearch
    rw [if_pos]
    rw [String.length_mk, List.length_replicate]
    decide
  · unfold truncTool
    rw [if_pos]
    rw [String.length_mk, List.length_replicate]
    decide

/-- C7 (amended): a search digest longer than 1000 characters is stored as
its first 1000 characters followed by the search-stage marker
"...\n(内容已截断)"; a tool output longer than 800 characters is stored as
its first 800 characters followed by the tool-stage marker
"...\n(结果已截断)"; outputs at or under the limit are stored unchanged. -/
theorem c7_amended (s : String) :
    (s.length ≤ 1000 → truncSearch s = s) ∧
    (1000 < s.length → truncSearch s = s.take 1000 ++ "...\n(内容已截断)") ∧
    (s.length ≤ 800 → truncTool s = s) ∧
    (800 < s.length → truncTool s = s.take 800 ++ "...\n(结果已截断)") := by
  refine ⟨?_, ?_, ?_, ?_⟩
  · intro h
    unfold truncSearch
    rw [if_neg (by omega)]
  · intro h
    unfold truncSearch
    rw [if_pos (by omega)]
  · intro h
    unfold truncTool
    rw [if_neg (by omega)]
  · intro h
    unfold truncTool
    rw [if_pos (by omega)]

/-- C7 (witness): truncation behaviour at a short digest and at an
801-character tool output. -/
theorem c7_amended_witness :
    truncSearch "abc" = "abc" ∧
    truncTool (String.mk (List.replicate 801 'y')) =
      (String.mk (List.replicate 801 'y')).take 800 ++ "...\n(结果已截断)" := by
  constructor
  · exact (c7_amended "abc").1 (by decide)
  · exact (c7_amended (String.mk (List.replicate 801 'y'))).2.2.2
      (by rw [String.length_mk, List.length_replicate]; decide)

/-- C8: when the decision backend call raises, the stage returns a state
update routing to the direct branch: `next_action = "answer_directly"`,
tool selector "none", the search query defaulted to the user query, and
`search_needed` false; the router then selects the direct-answer branch. -/
theorem c8_decision_failure_defaults (st : AgentState) :
    (decide_action_node DecideInput.backendFailure st).next_action
      = "answer_directly" ∧
    (decide_action_node DecideInput.backendFailure st).tool_output = "none" ∧
    (decide_action_node DecideInput.backendFailure st).search_query
      = st.user_query ∧
    (decide_action_node DecideInput.backendFailure st).search_needed = false ∧
    router_node (decide_action_node DecideInput.backendFailure st)
      = "direct_answer" := by
  exact ⟨rfl, rfl, rfl, rfl, rfl⟩

/-- C10: when the first maximal allowed run of the query consists only of
whitespace (e.g. the single space of a non-arithmetic query containing a
space), the calculator path passes that run, which strips to the empty
string, and the calculator returns the fixed no-valid-expression error
string; and the raw-query fallback is taken exactly when the query contains
no allowed character at all. -/
theorem c10_whitespace_first_run (evalFn : String → Option String) (q : String) :
    (∀ run, firstRun q = some run → (∀ c ∈ run.toList, isSpaceChar c = true) →
      toolCalcResult evalFn q = errNoExpression) ∧
    (firstRun q = none ↔ ∀ c ∈ q.toList, isAllowedChar c = false) := by
  constructor
  · intro run hrun hsp
    have h1 : calculatorExpression q = pyStrip run := by
      unfold calculatorExpression
      rw [hrun]
    have h2 : pyStrip run = "" := by
      unfold pyStrip pyStripL
      have hd : run.toList.dropWhile isSpaceChar = [] :=
        List.dropWhile_eq_nil_iff.mpr hsp
      rw [hd]
      rfl
    unfold toolCalcResult
    rw [h1, h2]
    rfl
  · constructor
    · intro hrun
      unfold firstRun firstRunL at hrun
      cases hd : q.toList.dropWhile (fun c => !isAllowedChar c) with
      | nil =>
          intro x hx
          have hx2 := List.dropWhile_eq_nil_iff.mp hd x hx
          simpa using hx2
      | cons c rest =>
          rw [hd] at hrun
          simp at hrun
    · intro hall
      unfold firstRun firstRunL
      cases hd : q.toList.dropWhile (fun c => !isAllowedChar c) with
      | nil => rfl
      | cons c rest =>
          exfalso
          have hc : isAllowedChar c = true := by
            have h5 := List.head?_dropWhile_not (fun c => !isAllowedChar c) q.toList
            rw [hd] at h5
            simpa using h5
          have hmem : c ∈ q.toList := by
            have hm : c ∈ q.toList.dropWhile (fun c => !isAllowedChar c) := by
              rw [hd]
              exact List.mem_cons_self c rest
            exact (List.dropWhile_sublist _).subset hm
          have hfalse := hall c hmem
          rw [hc] at hfalse
          simp at hfalse

/-- C1 (counterexample): with a parsed decision `next_action =
"search_first"` and `tool_needed = "none"`, the search branch executes (the
router selects it and the branch records step "skipped_search") yet the
branch output `search_results` is empty, refuting "whenever the search or
tool branch runs, branch output is non-empty". -/
theorem c1_counterexample :
    router_node (afterDecide envSkipSearchEmpty "你好") = "search" ∧
    (runBranch envSkipSearchEmpty (afterDecide envSkipSearchEmpty "你好")).step
      = "skipped_search" ∧
    (runTurn envSkipSearchEmpty "你好").search_results = "" := by
  refine ⟨rfl, rfl, rfl⟩

/-- C1 (amended): exactly one of the three branches executes per turn (the
router selects exactly one label), and the branch-output field
`search_results` is empty iff either the direct-answer branch executed or
the search branch executed with `search_needed` false (a parsed decision
routing to search without the web_search selector); whenever the tool
branch runs, or the search branch runs with `search_needed` true, the
branch output is non-empty. -/
theorem c1_amended (env : Env) (q : String) :
    (router_node (afterDecide env q) = "direct_answer" ∨
     router_node (afterDecide env q) = "search" ∨
     router_node (afterDecide env q) = "tools") ∧
    ((runTurn env q).search_results = "" ↔
      (router_node (afterDecide env q) = "direct_answer" ∨
       (router_node (afterDecide env q) = "search" ∧
        (afterDecide env q).search_needed = false))) := by
  refine ⟨router_cases _, ?_⟩
  have hsr : (afterDecide env q).search_results = "" := afterDecide_results_empty env q
  have hpres : (runTurn env q).search_results
      = (runBranch env (afterDecide env q)).search_results :=
    generate_final_preserves_results _ _
  rw [hpres]
  rcases router_cases (afterDecide env q) with h | h | h
  · rw [runBranch_direct h]
    apply iff_of_true
    · exact hsr
    · exact Or.inl h
  · rw [runBranch_search h]
    cases hn : (afterDecide env q).search_needed with
    | false =>
        apply iff_of_true
        · simp [search_node, hn]
        · exact Or.inr ⟨h, rfl⟩
    | true =>
        apply iff_of_false
        · have hres : (search_node env.hasClient env.curDate env.backend
              (afterDecide env q)).search_results
              = truncSearch (web_search env.hasClient env.curDate env.backend
                  (afterDecide env q).search_query) := by
            simp [search_node, hn]
          rw [hres]
          exact truncSearch_ne_empty (web_search_ne_empty _ _ _ _)
        · rintro (hcon | ⟨_, hcon⟩)
          · rw [h] at hcon
            exact absurd hcon (by decide)
          · exact Bool.noConfusion hcon
  · rw [runBranch_tools h]
    apply iff_of_false
    · exact tool_node_results_ne_empty _ _ _ _ _ _
    · rintro (hcon | ⟨hcon, _⟩) <;> rw [h] at hcon <;> exact absurd hcon (by decide)

/-- C5 (counterexample): with a parsed decision `next_action =
"search_first"` and `tool_needed = "calculator"`, the search branch is
skipped and no capability runs, yet synthesis appends a footer naming the
calculator — refuting "appends the footer exactly when a tool or search was
actually used, and appends no footer otherwise". -/
theorem c5_counterexample :
    (runBranch envStaleSelector (afterDecide envStaleSelector "你好")).step
      = "skipped_search" ∧
    (runTurn envStaleSelector "你好").search_results = "" ∧
    (runTurn envStaleSelector "你好").final_answer
      = "ANS" ++ footerFor "calculator" := by
  refine ⟨rfl, rfl, rfl⟩

/-- C5 (amended): for a non-direct turn whose synthesis call succeeds, the
synthesis stage appends the provenance footer exactly when the stored
tool-selector field (`tool_output`) is non-empty and differs from "none",
naming that stored selector; the footer is driven by the stored selector,
not by whether a capability actually ran (see the counterexample). -/
theorem c5_amended (env : Env) (q ans : String)
    (hsy : env.synthOutcome = SynthOutcome.success ans)
    (hnd : router_node (afterDecide env q) ≠ "direct_answer") :
    (runTurn env q).final_answer =
      (if (runBranch env (afterDecide env q)).tool_output ≠ "" ∧
          (runBranch env (afterDecide env q)).tool_output ≠ "none"
       then ans ++ footerFor ((runBranch env (afterDecide env q)).tool_output)
       else ans) := by
  have hstep : (runBranch env (afterDecide env q)).step ≠ "answered_directly" := by
    rcases router_cases (afterDecide env q) with h | h | h
    · exact absurd h hnd
    · rw [runBranch_search h]
      cases hn : (afterDecide env q).search_needed with
      | false => simp [search_node, hn]
      | true => simp [search_node, hn]
    · rw [runBranch_tools h]
      simp [tool_node]
  unfold runTurn generate_final_answer_node
  rw [if_neg hstep, hsy]

/-- C5 (witness): a tool turn with the date_time selector and a successful
synthesis gets the footer naming date_time. -/
theorem c5_amended_witness :
    (runTurn envDateTimeTurn "今天星期几").final_answer
      = "A" ++ footerFor "date_time" := by
  have h := c5_amended envDateTimeTurn "今天星期几" "A" rfl (by decide)
  rw [h]
  rfl

/-- C6 (counterexample): on the tool path with the web_search selector, the
query delivered to the search backend is the raw query WITH the date-suffix
augmentation, because the augmentation lives inside `web_search` itself: an
echoing backend receives "hello，当前日期是2026年10月12日", not the bare
"hello" the claim predicts. -/
theorem c6_counterexample :
    (tool_node true "2026年10月12日" echoBackend (fun _ => none) emptyClock
        { initState "hello" with tool_output := "web_search" }).search_results
      = "【综合答案】\nhello，当前日期是2026年10月12日\n\n" ∧
    ("【综合答案】\nhello，当前日期是2026年10月12日\n\n" : String)
      ≠ "【综合答案】\nhello\n\n" := by
  refine ⟨rfl, by decide⟩

/-- C6 (amended): when the tool stage dispatches on the web_search selector
or any unrecognized selector, it invokes `web_search` on the raw query text
(`user_query`, not the decision's `search_query`); `web_search` itself then
appends the current-date suffix before calling the backend, so the date
augmentation applies on this path exactly as on the search stage's path. -/
theorem c6_amended (env : Env) (st : AgentState)
    (h1 : st.tool_output ≠ "calculator") (h2 : st.tool_output ≠ "date_time") :
    (tool_node env.hasClient env.curDate env.backend env.evalFn
        env.clock st).search_results
      = truncTool (web_search env.hasClient env.curDate env.backend
          st.user_query) ∧
    (env.hasClient = true →
      web_search env.hasClient env.curDate env.backend st.user_query
        = searchOutcome (env.backend
            (st.user_query ++ "，当前日期是" ++ env.curDate))) := by
  constructor
  · show truncTool _ = _
    congr 1
    rw [if_neg h1, if_neg h2]
    by_cases hw : st.tool_output = "web_search"
    · rw [if_pos hw]
    · rw [if_neg hw]
  · intro hcl
    rw [hcl]
    simp [web_search, enhancedQuery]

/-- C6 (witness): an unrecognized selector with an echoing backend: the
stored result is the truncated `web_search` of the raw query, and the
backend receives the date-augmented query. -/
theorem c6_amended_witness :
    (tool_node true "2026年10月12日" echoBackend (fun _ => none) emptyClock
        { initState "今日新闻" with tool_output := "nonsense" }).search_results
      = truncTool (web_search true "2026年10月12日" echoBackend "今日新闻") ∧
    web_search true "2026年10月12日" echoBackend "今日新闻"
      = searchOutcome (echoBackend
          ("今日新闻" ++ "，当前日期是" ++ "2026年10月12日")) := by
  have h := c6_amended
    { hasClient := true, curDate := "2026年10月12日", backend := echoBackend,
      evalFn := fun _ => none, clock := emptyClock,
      decideInput := DecideInput.backendFailure, directAnswer := "",
      synthOutcome := SynthOutcome.success "" }
    { initState "今日新闻" with tool_output := "nonsense" }
    (by decide) (by decide)
  exact ⟨h.1, h.2 rfl⟩

/-- C9: the search capability never raises to its caller: with no credential
configured it returns the fixed unavailable message and the backend function
is never consulted (the result is independent of it); a backend exception is
converted to the fixed error string; the search stage stores the (truncated)
`web_search` output as branch output; and the turn proceeds to synthesis,
completing whenever the synthesis call succeeds. -/
theorem c9_search_error_handling (hc : Bool) (curDate q e a : String)
    (backend b1 b2 : String → Except String TavilyResponse)
    (st : AgentState) (env : Env) :
    web_search false curDate backend q = searchUnavailableMsg ∧
    web_search false curDate b1 q = web_search false curDate b2 q ∧
    (backend (enhancedQuery curDate q) = Except.error e →
      web_search true curDate backend q
        = "搜索失败: " ++ e ++ "。请检查网络连接或API密钥。") ∧
    (st.search_needed = true →
      (search_node hc curDate backend st).search_results
        = truncSearch (web_search hc curDate backend st.search_query) ∧
      (search_node hc curDate backend st).step = "searched") ∧
    (env.synthOutcome = SynthOutcome.success a →
      (runTurn env q).step = "completed") := by
  refine ⟨rfl, rfl, ?_, ?_, ?_⟩
  · intro hb
    simp [web_search, searchOutcome, hb]
  · intro hn
    constructor <;> simp [search_node, hn]
  · intro hsy
    unfold runTurn generate_final_answer_node
    by_cases hstep : (runBranch env (afterDecide env q)).step = "answered_directly"
    · rw [if_pos hstep]
    · rw [if_neg hstep, hsy]

/-- C9 (witness): a raising backend is converted to the error string; the
searching search stage stores that (truncated) output; a full turn with a
failing backend still completes. -/
theorem c9_search_error_handling_witness :
    web_search true "2026年10月12日" (fun _ => Except.error "boom") "天气"
      = "搜索失败: " ++ "boom" ++ "。请检查网络连接或API密钥。" ∧
    (search_node true "2026年10月12日" (fun _ => Except.error "boom")
        { initState "天气" with search_needed := true, search_query := "天气" }).search_results
      = truncSearch (web_search true "2026年10月12日"
          (fun _ => Except.error "boom") "天气") ∧
    (runTurn envSearchFailTurn "今天天气").step = "completed" := by
  have h := c9_search_error_handling true "2026年10月12日" "天气" "boom" "A"
    (fun _ => Except.error "boom") (fun _ => Except.error "boom")
    (fun _ => Except.error "boom")
    { initState "天气" with search_needed := true, search_query := "天气" }
    envSearchFailTurn
  exact ⟨h.2.2.1 rfl, (h.2.2.2.1 rfl).1, h.2.2.2.2 rfl⟩

/-- C10 (witness): a query whose only allowed character is a space yields
the fixed error; a query with no allowed character has no run at all. -/
theorem c10_whitespace_first_run_witness :
    toolCalcResult (fun _ => none) "什么是 人工智能" = errNoExpression ∧
    firstRun "什么是人工智能" = none := by
  constructor
  · exact (c10_whitespace_first_run (fun _ => none) "什么是 人工智能").1
      " " (by decide) (by decide)
  · exact (c10_whitespace_first_run (fun _ => none) "什么是人工智能").2.mpr
      (by decide)

end Agent
